import Mathlib

/-!
Verification of the Steam wishlist copier (`src/Start.py`) against its
specification.

The script has two loops with real contracts:

* `download_wishlist user_id` — paginated fetch of the wishlist JSON endpoint,
  merging page keys into an insertion-ordered dict, caching each page to
  `temp_wishlist/wishlist{p}.json`;
* `add_to_wishlist page app_ids` — browser-driven replication, one identifier
  at a time, with a fixed rate-limit delay after each successful add.

Both are embedded below as pure Lean functions over explicit descriptions of
the environment (page responses for the fetcher, per-identifier page state for
the replicator), with the externally observable side effects (HTTP requests,
cache files, waits, clicks) returned as explicit data.
-/

/-- Fixed delay in seconds after each state-changing add action
(`RATE_LIMIT_DELAY = 4` in the source). -/
def RATE_LIMIT_DELAY : Nat := 4

/-- Name of the transient cache directory (`TEMP_DIR = Path("temp_wishlist")`). -/
def TEMP_DIR : String := "temp_wishlist"

/-- Parsed JSON body of one wishlist-endpoint response, at the granularity the
script distinguishes.  `response.json()` yields a Python value; the loop tests
`if not json_data` (Python truthiness) and then calls
`wishlist_data.update(json_data)`.

* `jobj keys` — a JSON object, given by its keys in parse order (the metadata
  values are never interpreted by the script, so they are not modelled);
* `jfalsy` — a falsy non-object value: `null`, `false`, `0`, the empty string
  or the empty array (all make `not json_data` true, so the loop breaks before
  the merge);
* `jtruthy` — a truthy non-object scalar: a nonzero number, a non-empty
  string, or `true` (passes the truthiness test, then `dict.update` raises an
  uncaught `TypeError`/`ValueError`; truthy arrays are outside this model). -/
inductive JBody where
  | jobj (keys : List String)
  | jfalsy
  | jtruthy
deriving DecidableEq, Repr

/-- Outcome of one HTTP GET of a wishlist page.  `transportError` covers a
network failure, a timeout, or a non-2xx status (`raise_for_status`), i.e.
everything the `except requests.RequestException` handler catches. -/
inductive PageResult where
  | ok (body : JBody)
  | transportError
deriving DecidableEq, Repr

/-- How `download_wishlist` ends: it either returns its identifier list or an
exception escapes it (no handler in the function catches non-request errors). -/
inductive FetchOutcome where
  | returned (ids : List String)
  | raised
deriving DecidableEq, Repr

/-- Observable result of a `download_wishlist` run: the number of HTTP GET
requests issued, the page indices whose cache file
`temp_wishlist/wishlist{p}.json` was written, and how the call ended. -/
structure FetchResult where
  requests : Nat
  files : List Nat
  outcome : FetchOutcome
deriving DecidableEq, Repr

/-- One step of Python's insertion-ordered `dict` key update: inserting an
existing key keeps its original position, a new key is appended. -/
def insert1 (acc : List String) (k : String) : List String :=
  if k ∈ acc then acc else acc ++ [k]

/-- Key-level effect of `wishlist_data.update(json_data)` for an object page:
each key of the page merged in order, first-seen position preserved. -/
def mergeKeys (acc : List String) (ks : List String) : List String :=
  ks.foldl insert1 acc

/-- First-seen deduplication of a key sequence (the key list of a Python dict
built by repeated insertion, starting empty). -/
def dedupFS (l : List String) : List String :=
  l.foldl insert1 []

/-- The `while True` fetch loop of `download_wishlist`, recursing over the
remaining page responses.  `acc` is the key list of `wishlist_data`, `p` the
`page` counter (= pages merged so far = cache files written so far).  A page
beyond the provided list is an empty object — the endpoint's end-of-pagination
signal — so every run terminates.  Each iteration issues one request; the loop
body breaks on a falsy body (`if not json_data: break`), breaks on a transport
error (`except requests.RequestException`), writes the cache file and merges
on a truthy body — where a non-object makes `dict.update` raise, after the
cache file for that page was already written. -/
def fetchGo : List PageResult → List String → Nat → FetchResult
  | [], acc, p =>
      { requests := p + 1, files := List.range p, outcome := .returned acc }
  | .transportError :: _, acc, p =>
      { requests := p + 1, files := List.range p, outcome := .returned acc }
  | .ok (.jobj ks) :: rest, acc, p =>
      if ks.isEmpty then
        { requests := p + 1, files := List.range p, outcome := .returned acc }
      else
        fetchGo rest (mergeKeys acc ks) (p + 1)
  | .ok .jfalsy :: _, acc, p =>
      { requests := p + 1, files := List.range p, outcome := .returned acc }
  | .ok .jtruthy :: _, _, p =>
      { requests := p + 1, files := List.range (p + 1), outcome := .raised }

/-- `download_wishlist` from the source, as a function of the page responses
the endpoint serves.  It creates the cache directory (`TEMP_DIR.mkdir`) and
runs the fetch loop from an empty dict and page 0. -/
def download_wishlist (pages : List PageResult) : FetchResult :=
  fetchGo pages [] 0

/-- A page response that the loop merges and moves past: a 2xx response whose
body is a non-empty JSON object. -/
def isMergedPage : PageResult → Bool
  | .ok (.jobj ks) => !ks.isEmpty
  | _ => false

/-- Keys of a page response (empty for non-object bodies). -/
def pageKeys : PageResult → List String
  | .ok (.jobj ks) => ks
  | _ => []

/-- Concatenated keys of the maximal prefix of pages the fetch loop merges
before hitting a terminator. -/
def mergedKeys (pages : List PageResult) : List String :=
  ((pages.takeWhile isMergedPage).map pageKeys).flatten

/-- Shorthand for the page response carrying a non-empty JSON object. -/
def objPage (ks : List String) : PageResult :=
  PageResult.ok (JBody.jobj ks)

/-- Per-identifier page state seen by one iteration of the replication loop in
`add_to_wishlist`.  It abstracts what the browser does for that identifier:

* `navRaises` — `page.goto` (or the settle wait) raises an ordinary exception,
  handled by the outer `except Exception` arm;
* `waitTimeout` — navigation succeeds but the wishlist-action element
  `#add_to_wishlist_area` is not located within the bounded wait
  (`wishlist_area.wait_for(timeout=5000)` raises `PlaywrightTimeout`, handled
  by the inner `except PlaywrightTimeout` arm);
* `found style clickRaises` — the element is located; `style` is the value of
  its `style` attribute (`None` or a string), and `clickRaises` says whether
  `wishlist_area.click()` raises an ordinary exception — in which case the
  click does not take effect and the outer handler runs.

`handle_age_gate` wraps its whole body in a bare `except` and touches no
counter, so it cannot influence any outcome and is not modelled. -/
inductive ItemPage where
  | navRaises
  | waitTimeout
  | found (style : Option String) (clickRaises : Bool)
deriving DecidableEq, Repr

/-- Per-identifier result recorded by the loop (`ReplicationOutcome` in the
spec): `Added` increments `added`, `AlreadyPresent` increments `skipped`,
`Error` increments `errors`. -/
inductive Outcome where
  | Added
  | AlreadyPresent
  | Error
deriving DecidableEq, Repr

/-- Externally observable effects of the replication loop that the contracts
count: a click on the wishlist-action element, the fixed rate-limit pause
`page.wait_for_timeout(RATE_LIMIT_DELAY * 1000)` after a successful add, and
the 2-second recovery pause `page.wait_for_timeout(2000)` of the outer
exception handler. -/
inductive Effect where
  | click
  | rateLimitDelay
  | recoveryDelay
deriving DecidableEq, Repr

/-- The run-level counters of `add_to_wishlist`. -/
structure Counters where
  added : Nat
  skipped : Nat
  errors : Nat
deriving DecidableEq, Repr

/-- List-of-characters substring test (Python's `needle in haystack`). -/
def hasSubstr (needle : List Char) : List Char → Bool
  | [] => needle.isEmpty
  | c :: cs => needle.isPrefixOf (c :: cs) || hasSubstr needle cs

/-- Whether the element's `style` attribute marks it hidden, exactly as the
source tests it: `if style and "display: none" in style`.  `None` and the
empty string are falsy; otherwise Python's `in` is substring containment. -/
def isHidden (style : Option String) : Bool :=
  match style with
  | none => false
  | some s => !s.isEmpty && hasSubstr "display: none".toList s.toList

/-- One iteration body of the replication loop, for an identifier whose page
behaves as `ip`: the outcome recorded and the effects issued, following the
source's control flow.

* `navRaises`: the outer `except Exception` arm runs — `errors += 1` and the
  2-second recovery pause.
* `waitTimeout`: the inner `except PlaywrightTimeout` arm runs — `errors += 1`
  and no pause.
* element found, style hidden: `skipped += 1`, no click, no delay.
* element found, visible, click succeeds: click, `added += 1`, then the
  rate-limit pause.
* element found, visible, click raises: the add action does not take effect
  and the outer arm runs — `errors += 1` and the recovery pause. -/
def processItem : ItemPage → Outcome × List Effect
  | .navRaises => (.Error, [.recoveryDelay])
  | .waitTimeout => (.Error, [])
  | .found style clickRaises =>
      if isHidden style then (.AlreadyPresent, [])
      else if clickRaises then (.Error, [.recoveryDelay])
      else (.Added, [.click, .rateLimitDelay])

/-- Bump the counter the recorded outcome selects. -/
def applyOutcome (c : Counters) : Outcome → Counters
  | .Added => { c with added := c.added + 1 }
  | .AlreadyPresent => { c with skipped := c.skipped + 1 }
  | .Error => { c with errors := c.errors + 1 }

/-- The `for app_id in app_ids` loop of `add_to_wishlist`: `env` assigns each
identifier its page state, `c` holds the running counters and `tr` the effect
trace so far. -/
def replicateGo (env : String → ItemPage) :
    List String → Counters → List Effect → Counters × List Effect
  | [], c, tr => (c, tr)
  | app_id :: rest, c, tr =>
      replicateGo env rest (applyOutcome c (processItem (env app_id)).1)
        (tr ++ (processItem (env app_id)).2)

/-- `add_to_wishlist` from the source: process the identifiers strictly in
order starting from zeroed counters, returning `(added, skipped, errors)`
together with the run's effect trace. -/
def add_to_wishlist (env : String → ItemPage) (app_ids : List String) :
    Counters × List Effect :=
  replicateGo env app_ids ⟨0, 0, 0⟩ []

/-- Whether the wishlist-action element in this page state is found and
marked hidden (the `AlreadyPresent` membership test of the loop). -/
def itemHidden : ItemPage → Bool
  | .found style _ => isHidden style
  | _ => false

/-- Whether the wishlist-action element for this identifier is found and
marked hidden. -/
def hiddenFor (env : String → ItemPage) (app_id : String) : Bool :=
  itemHidden (env app_id)

/-- Whether this identifier's iteration ends in an error handler: element-wait
timeout, navigation failure, or a failing click on a visible element. -/
def failsFor (env : String → ItemPage) (app_id : String) : Bool :=
  match env app_id with
  | .navRaises => true
  | .waitTimeout => true
  | .found style clickRaises => !isHidden style && clickRaises

/-- Whether the wishlist-action element is located for this identifier. -/
def isFound : ItemPage → Bool
  | .found _ _ => true
  | _ => false

/-- State of the cache directory: `none` when `temp_wishlist` does not exist,
`some files` when it exists and holds `wishlist{p}.json` for the indices in
`files`. -/
abbrev CacheState : Type := Option (List Nat)

/-- `cleanup_temp_files` from the source: if the directory exists, unlink
every `wishlist*.json` file in it and remove the directory (every file the
program put there matches the glob); an absent directory is left alone, not an
error. -/
def cleanup_temp_files : CacheState → CacheState
  | none => none
  | some _ => none

/-- How the browser phase of `main` (the body of `with sync_playwright()`)
ends: normal completion, an exception reaching `except Exception`, or a user
interrupt reaching `except KeyboardInterrupt`.  All three fall through to the
`finally` block.  The cache is untouched by the phase itself. -/
inductive BrowserOutcome where
  | completes
  | fatalError
  | interrupted
deriving DecidableEq, Repr

/-- `main` from the source, tracked at the level of the cache directory,
which is the only state C4 is about.  `download_wishlist` creates the
directory and writes the page files; then

* if the fetch raised, the exception is unhandled (the call happens before
  any `try`) and the process dies with the cache in place;
* if the fetched list is empty, `main` prints and returns — no cleanup runs;
* in dry-run mode, `cleanup_temp_files` is called before returning;
* otherwise the browser phase runs inside `try/except/finally` and the
  `finally` arm calls `cleanup_temp_files` on every outcome.

Returns the final cache state.  (Named `runMain` because Lean reserves `main`
for an executable entry point.) -/
def runMain (pages : List PageResult) (dry_run : Bool) (bo : BrowserOutcome) :
    CacheState :=
  let r := download_wishlist pages
  match r.outcome with
  | .raised => some r.files
  | .returned ids =>
      if ids.isEmpty then some r.files
      else if dry_run then cleanup_temp_files (some r.files)
      else
        match bo with
        | .completes => cleanup_temp_files (some r.files)
        | .fatalError => cleanup_temp_files (some r.files)
        | .interrupted => cleanup_temp_files (some r.files)

/-- Python's `l[:n]` for an integer `n`: the first `n` elements when `n ≥ 0`,
and all but the last `-n` elements when `n < 0` (clamped to empty). -/
def pySliceTo (l : List String) (n : Int) : List String :=
  if 0 ≤ n then l.take n.toNat else l.take ((l.length : Int) + n).toNat

/-- The `--limit` handling in `main`: `if args.limit: app_ids =
app_ids[:args.limit]`.  `none` is an absent flag; `0` is falsy in Python, so
the slice is only applied to a nonzero limit. -/
def applyLimit (limit : Option Int) (app_ids : List String) : List String :=
  match limit with
  | none => app_ids
  | some n => if n = 0 then app_ids else pySliceTo app_ids n

/-! ## Lemmas about the fetch loop -/

theorem mergeKeys_foldl (ps : List (List String)) (acc : List String) :
    ps.foldl mergeKeys acc = ps.flatten.foldl insert1 acc := by
  induction ps generalizing acc with
  | nil => rfl
  | cons ks ps ih =>
      show ps.foldl mergeKeys (mergeKeys acc ks)
          = ((ks ++ ps.flatten).foldl insert1 acc)
      rw [List.foldl_append]
      exact ih _

theorem fetchGo_obj_pages (ps : List (List String)) (rest : List PageResult)
    (acc : List String) (p : Nat) (h : ∀ l ∈ ps, l ≠ []) :
    fetchGo (ps.map objPage ++ rest) acc p
      = fetchGo rest (ps.foldl mergeKeys acc) (p + ps.length) := by
  induction ps generalizing acc p with
  | nil => simp
  | cons ks ps ih =>
      have hks : ks ≠ [] := h ks (by simp)
      cases ks with
      | nil => exact absurd rfl hks
      | cons a t =>
          show fetchGo (objPage (a :: t) :: (ps.map objPage ++ rest)) acc p = _
          rw [show fetchGo (objPage (a :: t) :: (ps.map objPage ++ rest)) acc p
                = fetchGo (ps.map objPage ++ rest) (mergeKeys acc (a :: t)) (p + 1) from rfl]
          rw [ih (mergeKeys acc (a :: t)) (p + 1) (fun l hl => h l (by simp [hl]))]
          have hlen : p + 1 + ps.length = p + (ps.length + 1) := by omega
      
          rw [hlen]
          rfl

theorem insert1_nodup (acc : List String) (k : String) (h : acc.Nodup) :
    (insert1 acc k).Nodup := by
  unfold insert1
  split
  · exact h
  · rename_i hk
    simp [List.nodup_append, h, hk]

theorem foldl_insert1_nodup (ks acc : List String) (h : acc.Nodup) :
    (ks.foldl insert1 acc).Nodup := by
  induction ks generalizing acc with
  | nil => exact h
  | cons a t ih => exact ih _ (insert1_nodup _ _ h)

theorem fetchGo_returned_eq (pages : List PageResult) (acc : List String)
    (p r : Nat) (f : List Nat) (l : List String)
    (h : fetchGo pages acc p = ⟨r, f, FetchOutcome.returned l⟩) :
    l = (mergedKeys pages).foldl insert1 acc := by
  induction pages generalizing acc p r f with
  | nil =>
      simp [fetchGo] at h
      simp [mergedKeys, h]
  | cons pg rest ih =>
      cases pg with
      | transportError =>
          simp [fetchGo] at h
          simp [mergedKeys, List.takeWhile, isMergedPage, h]
      | ok b =>
          cases b with
          | jobj ks =>
              cases ks with
              | nil =>
                  simp [fetchGo] at h
                  simp [mergedKeys, List.takeWhile, isMergedPage, h]
              | cons a t =>
                  have h' : fetchGo rest (mergeKeys acc (a :: t)) (p + 1)
                      = ⟨r, f, FetchOutcome.returned l⟩ := h
                  have := ih _ _ _ _ h'
                  rw [this]
                  simp [mergedKeys, List.takeWhile, isMergedPage, pageKeys,
                    List.foldl_append]
                  rfl
          | jfalsy =>
              simp [fetchGo] at h
              simp [mergedKeys, List.takeWhile, isMergedPage, h]
          | jtruthy =>
              simp [fetchGo] at h

/-! ## Fetcher claims -/

/-- Claim C2: for every sequence of page responses in which pages `0..k-1`
are non-empty JSON objects and page `k` is the empty object, the fetcher
returns exactly the union of the identifiers of pages `0..k-1` in first-seen
order and issues exactly `k+1` HTTP requests; with `ps = []` this includes the
edge case that an empty page 0 yields the empty list after exactly 1
request. -/
theorem c2_fetch_union_first_seen (ps : List (List String))
    (rest : List PageResult) (h : ∀ l ∈ ps, l ≠ []) :
    download_wishlist (ps.map objPage ++ objPage [] :: rest)
      = { requests := ps.length + 1, files := List.range ps.length,
          outcome := FetchOutcome.returned (dedupFS ps.flatten) } := by
  unfold download_wishlist
  rw [fetchGo_obj_pages ps _ [] 0 h]
  show fetchGo (objPage [] :: rest) (ps.foldl mergeKeys []) (0 + ps.length) = _
  rw [mergeKeys_foldl]
  simp [fetchGo, objPage, dedupFS]

/-- Witness for C2 at the spec's end-to-end scenario A: page 0 is
`{"10":{},"20":{}}`, page 1 is `{}`; the fetcher returns `["10","20"]` after
exactly 2 requests, writing the single cache file `wishlist0.json`. -/
theorem c2_fetch_union_first_seen_witness :
    (∀ l ∈ [["10", "20"]], l ≠ ([] : List String)) ∧
    download_wishlist [objPage ["10", "20"], objPage []]
      = { requests := 2, files := [0],
          outcome := FetchOutcome.returned ["10", "20"] } := by
  refine ⟨by decide, ?_⟩
  have h := c2_fetch_union_first_seen [["10", "20"]] [] (by decide)
  simpa using h.trans (by decide)

/-- Claim C6: a transport error (network failure or non-2xx status) while
fetching page `m` makes the fetcher stop — no further page of the stream is
requested — and return the union of the identifiers of pages `0..m-1` as a
partial result rather than failing. -/
theorem c6_fetch_transport_error_partial (ps : List (List String))
    (rest : List PageResult) (h : ∀ l ∈ ps, l ≠ []) :
    download_wishlist (ps.map objPage ++ PageResult.transportError :: rest)
      = { requests := ps.length + 1, files := List.range ps.length,
          outcome := FetchOutcome.returned (dedupFS ps.flatten) } := by
  unfold download_wishlist
  rw [fetchGo_obj_pages ps _ [] 0 h]
  show fetchGo (PageResult.transportError :: rest)
      (ps.foldl mergeKeys []) (0 + ps.length) = _
  rw [mergeKeys_foldl]
  simp [fetchGo, dedupFS]

/-- Witness for C6: one good page `{"10":{}}`, then a transport error on page
1 (further pages would have carried `"99"`): the fetcher stops after 2
requests and returns `["10"]`. -/
theorem c6_fetch_transport_error_partial_witness :
    (∀ l ∈ [["10"]], l ≠ ([] : List String)) ∧
    download_wishlist [objPage ["10"], PageResult.transportError,
        objPage ["99"]]
      = { requests := 2, files := [0],
          outcome := FetchOutcome.returned ["10"] } := by
  refine ⟨by decide, ?_⟩
  have h := c6_fetch_transport_error_partial [["10"]] [objPage ["99"]]
    (by decide)
  simpa using h.trans (by decide)

/-- Counterexample to claim C5: on a page whose body is the truthy non-object
JSON value `5`, `if not json_data` is false and `wishlist_data.update(5)`
raises an uncaught `TypeError` — `except requests.RequestException` does not
catch it — so the run fails instead of terminating the loop and returning the
accumulated identifiers (here `[]`). -/
theorem c5_counterexample :
    download_wishlist [PageResult.ok JBody.jtruthy]
      = { requests := 1, files := [0], outcome := FetchOutcome.raised } ∧
    FetchOutcome.raised ≠ FetchOutcome.returned [] := by
  exact ⟨rfl, by decide⟩

/-- Claim C5 as amended: only a *falsy* non-object body (`null`, `false`,
`0`, `""`, `[]`) is treated like the empty object — the loop terminates and
the identifiers accumulated from earlier pages are returned; a *truthy*
non-object scalar body passes the `if not json_data` test and makes
`dict.update` raise an uncaught exception, so the run fails after writing
that page's cache file. -/
theorem c5_amended_nonobject_body (ps : List (List String))
    (rest : List PageResult) (h : ∀ l ∈ ps, l ≠ []) :
    download_wishlist (ps.map objPage ++ PageResult.ok JBody.jfalsy :: rest)
      = { requests := ps.length + 1, files := List.range ps.length,
          outcome := FetchOutcome.returned (dedupFS ps.flatten) } ∧
    download_wishlist (ps.map objPage ++ PageResult.ok JBody.jtruthy :: rest)
      = { requests := ps.length + 1, files := List.range (ps.length + 1),
          outcome := FetchOutcome.raised } := by
  constructor
  · unfold download_wishlist
    rw [fetchGo_obj_pages ps _ [] 0 h]
    show fetchGo (PageResult.ok JBody.jfalsy :: rest)
        (ps.foldl mergeKeys []) (0 + ps.length) = _
    rw [mergeKeys_foldl]
    simp [fetchGo, dedupFS]
  · unfold download_wishlist
    rw [fetchGo_obj_pages ps _ [] 0 h]
    simp [fetchGo]

/-- Witness for the amended C5: after one good page `{"10":{}}`, a falsy
non-object body on page 1 yields the partial result `["10"]`, while a truthy
non-object scalar on page 1 crashes the run after writing `wishlist1.json`. -/
theorem c5_amended_nonobject_body_witness :
    (∀ l ∈ [["10"]], l ≠ ([] : List String)) ∧
    (download_wishlist [objPage ["10"], PageResult.ok JBody.jfalsy]
        = { requests := 2, files := [0],
            outcome := FetchOutcome.returned ["10"] } ∧
      download_wishlist [objPage ["10"], PageResult.ok JBody.jtruthy]
        = { requests := 2, files := [0, 1],
            outcome := FetchOutcome.raised }) := by
  refine ⟨by decide, ?_⟩
  have h := c5_amended_nonobject_body [["10"]] [] (by decide)
  constructor
  · simpa using h.1.trans (by decide)
  · simpa using h.2.trans (by decide)

/-- Claim C9: whatever the page responses are — even when the same identifier
occurs on several pages — a returned identifier list is exactly the
first-seen deduplication of the keys of the merged pages: each identifier
occurs exactly once (`Nodup`), at the position of its first occurrence across
pages. -/
theorem c9_returned_list_dedup (pages : List PageResult) (r : Nat)
    (f : List Nat) (l : List String)
    (h : download_wishlist pages = ⟨r, f, FetchOutcome.returned l⟩) :
    l = dedupFS (mergedKeys pages) ∧ l.Nodup := by
  have he := fetchGo_returned_eq pages [] 0 r f l h
  refine ⟨he, ?_⟩
  rw [he]
  exact foldl_insert1_nodup _ _ List.nodup_nil

/-- Witness for C9: identifier `"20"` appears on both pages; the returned
list keeps it once, at its first-seen position. -/
theorem c9_returned_list_dedup_witness :
    download_wishlist [objPage ["10", "20"], objPage ["20", "30"]]
      = ⟨3, [0, 1], FetchOutcome.returned ["10", "20", "30"]⟩ ∧
    (["10", "20", "30"]
        = dedupFS (mergedKeys [objPage ["10", "20"], objPage ["20", "30"]]) ∧
      (["10", "20", "30"] : List String).Nodup) := by
  refine ⟨by decide, ?_⟩
  exact c9_returned_list_dedup _ 3 [0, 1] _ (by decide)

/-! ## Lemmas about the replication loop -/

theorem replicateGo_append (env : String → ItemPage) (l1 l2 : List String)
    (c : Counters) (tr : List Effect) :
    replicateGo env (l1 ++ l2) c tr
      = replicateGo env l2 (replicateGo env l1 c tr).1
          (replicateGo env l1 c tr).2 := by
  induction l1 generalizing c tr with
  | nil => rfl
  | cons a t ih =>
      show replicateGo env (t ++ l2) _ _ = _
      rw [ih]
      rfl

theorem replicateGo_shift (env : String → ItemPage) (l : List String)
    (c : Counters) (tr : List Effect) :
    replicateGo env l c tr
      = (⟨c.added + (add_to_wishlist env l).1.added,
          c.skipped + (add_to_wishlist env l).1.skipped,
          c.errors + (add_to_wishlist env l).1.errors⟩,
         tr ++ (add_to_wishlist env l).2) := by
  induction l generalizing c tr with
  | nil => simp [replicateGo, add_to_wishlist]
  | cons a t ih =>
      show replicateGo env t (applyOutcome c (processItem (env a)).1)
          (tr ++ (processItem (env a)).2) = _
      rw [ih]
      have h0 : add_to_wishlist env (a :: t)
          = replicateGo env t (applyOutcome ⟨0, 0, 0⟩ (processItem (env a)).1)
              ((processItem (env a)).2) := rfl
      rw [h0, ih]
      obtain ⟨ca, cs, ce⟩ := c
      cases (processItem (env a)).1 <;>
        simp [applyOutcome, List.append_assoc] <;> omega

/-- Unfolding one iteration of `add_to_wishlist` into the contribution of the
first identifier plus the run on the rest. -/
theorem add_to_wishlist_cons (env : String → ItemPage) (a : String)
    (t : List String) :
    add_to_wishlist env (a :: t)
      = (⟨(applyOutcome ⟨0, 0, 0⟩ (processItem (env a)).1).added
            + (add_to_wishlist env t).1.added,
          (applyOutcome ⟨0, 0, 0⟩ (processItem (env a)).1).skipped
            + (add_to_wishlist env t).1.skipped,
          (applyOutcome ⟨0, 0, 0⟩ (processItem (env a)).1).errors
            + (add_to_wishlist env t).1.errors⟩,
        (processItem (env a)).2 ++ (add_to_wishlist env t).2) := by
  show replicateGo env t (applyOutcome ⟨0, 0, 0⟩ (processItem (env a)).1)
      ((processItem (env a)).2) = _
  rw [replicateGo_shift]

/-- Splitting `add_to_wishlist` around a distinguished middle identifier. -/
theorem add_to_wishlist_middle (env : String → ItemPage)
    (pre post : List String) (b : String) :
    add_to_wishlist env (pre ++ b :: post)
      = (⟨(applyOutcome (add_to_wishlist env pre).1
              (processItem (env b)).1).added
            + (add_to_wishlist env post).1.added,
          (applyOutcome (add_to_wishlist env pre).1
              (processItem (env b)).1).skipped
            + (add_to_wishlist env post).1.skipped,
          (applyOutcome (add_to_wishlist env pre).1
              (processItem (env b)).1).errors
            + (add_to_wishlist env post).1.errors⟩,
        ((add_to_wishlist env pre).2 ++ (processItem (env b)).2)
          ++ (add_to_wishlist env post).2) := by
  unfold add_to_wishlist
  rw [replicateGo_append]
  show replicateGo env post
      (applyOutcome (replicateGo env pre ⟨0, 0, 0⟩ []).1
        (processItem (env b)).1)
      ((replicateGo env pre ⟨0, 0, 0⟩ []).2 ++ (processItem (env b)).2) = _
  rw [replicateGo_shift]
  rfl

/-- Per-item fact: the rate-limit delay occurs in an iteration's effects
exactly as often as the iteration increments `added` (once on the add path,
never otherwise). -/
theorem processItem_count_rld (ip : ItemPage) :
    (processItem ip).2.count Effect.rateLimitDelay
      = (applyOutcome ⟨0, 0, 0⟩ (processItem ip).1).added := by
  cases ip with
  | navRaises => rfl
  | waitTimeout => rfl
  | found st cr =>
      cases hst : isHidden st with
      | true => simp [processItem, hst, applyOutcome]
      | false =>
          cases cr <;> simp [processItem, hst, applyOutcome, List.count_cons]

/-- Per-item fact: a click occurs in an iteration's effects exactly as often
as the iteration increments `added`. -/
theorem processItem_count_click (ip : ItemPage) :
    (processItem ip).2.count Effect.click
      = (applyOutcome ⟨0, 0, 0⟩ (processItem ip).1).added := by
  cases ip with
  | navRaises => rfl
  | waitTimeout => rfl
  | found st cr =>
      cases hst : isHidden st with
      | true => simp [processItem, hst, applyOutcome]
      | false =>
          cases cr <;> simp [processItem, hst, applyOutcome, List.count_cons]

/-- Per-item fact: an iteration increments `skipped` exactly when the element
is found and marked hidden. -/
theorem processItem_skipped (ip : ItemPage) :
    (applyOutcome ⟨0, 0, 0⟩ (processItem ip).1).skipped
      = if itemHidden ip then 1 else 0 := by
  cases ip with
  | navRaises => rfl
  | waitTimeout => rfl
  | found st cr =>
      cases hst : isHidden st with
      | true => simp [processItem, itemHidden, hst, applyOutcome]
      | false =>
          cases cr <;> simp [processItem, itemHidden, hst, applyOutcome]

/-- Per-item fact: every iteration increments exactly one of the three
counters. -/
theorem processItem_total (ip : ItemPage) :
    (applyOutcome ⟨0, 0, 0⟩ (processItem ip).1).added
      + (applyOutcome ⟨0, 0, 0⟩ (processItem ip).1).skipped
      + (applyOutcome ⟨0, 0, 0⟩ (processItem ip).1).errors = 1 := by
  cases (processItem ip).1 <;> rfl

/-- Run-level: the three counters always sum to the number of identifiers. -/
theorem add_to_wishlist_total (env : String → ItemPage) (l : List String) :
    (add_to_wishlist env l).1.added + (add_to_wishlist env l).1.skipped
      + (add_to_wishlist env l).1.errors = l.length := by
  induction l with
  | nil => rfl
  | cons a t ih =>
      rw [add_to_wishlist_cons]
      have := processItem_total (env a)
      simp only [List.length_cons]
      omega

/-- Run-level: `skipped` counts exactly the identifiers whose element is
found and marked hidden. -/
theorem add_to_wishlist_skipped (env : String → ItemPage) (l : List String) :
    (add_to_wishlist env l).1.skipped
      = (l.filter (hiddenFor env)).length := by
  induction l with
  | nil => rfl
  | cons a t ih =>
      rw [add_to_wishlist_cons]
      have hb := processItem_skipped (env a)
      cases hh : itemHidden (env a) with
      | true =>
          simp [List.filter_cons, hiddenFor, hh, hb, ih]
          omega
      | false =>
          simp [List.filter_cons, hiddenFor, hh, hb, ih]

/-- Run-level: the click action fires exactly `added` times. -/
theorem add_to_wishlist_clicks (env : String → ItemPage) (l : List String) :
    (add_to_wishlist env l).2.count Effect.click
      = (add_to_wishlist env l).1.added := by
  induction l with
  | nil => rfl
  | cons a t ih =>
      rw [add_to_wishlist_cons]
      simp only [List.count_append, ih, processItem_count_click]

/-! ## Replicator claims -/

/-- Claim C1: in the replication loop, the fixed 4-second rate-limit delay
occurs exactly once per `Added` outcome and never on the `AlreadyPresent` or
`Error` paths — for every identifier list and every assignment of page
states, the number of rate-limit-delay effects in the run's trace equals the
final `added` counter. -/
theorem c1_rate_limit_delay_iff_added (env : String → ItemPage)
    (app_ids : List String) :
    (add_to_wishlist env app_ids).2.count Effect.rateLimitDelay
      = (add_to_wishlist env app_ids).1.added := by
  induction app_ids with
  | nil => rfl
  | cons a t ih =>
      rw [add_to_wishlist_cons]
      simp only [List.count_append, ih, processItem_count_rld]

/-- Claim C3: for a list of `N` identifiers whose wishlist-action element is
always located — hidden for the subset `S`, visible for the rest — the
counters satisfy `added + skipped + errors = N` and `skipped = |S|`, and the
add click fires exactly `N - |S| - errors` times. -/
theorem c3_counter_identities (env : String → ItemPage)
    (app_ids : List String)
    (_hfound : ∀ a ∈ app_ids, isFound (env a) = true) :
    (add_to_wishlist env app_ids).1.added
        + (add_to_wishlist env app_ids).1.skipped
        + (add_to_wishlist env app_ids).1.errors = app_ids.length ∧
    (add_to_wishlist env app_ids).1.skipped
        = (app_ids.filter (hiddenFor env)).length ∧
    (add_to_wishlist env app_ids).2.count Effect.click
        = app_ids.length - (app_ids.filter (hiddenFor env)).length
            - (add_to_wishlist env app_ids).1.errors := by
  have h1 := add_to_wishlist_total env app_ids
  have h2 := add_to_wishlist_skipped env app_ids
  have h3 := add_to_wishlist_clicks env app_ids
  refine ⟨h1, h2, ?_⟩
  omega

/-- Witness for C3 at the spec's end-to-end scenario B: identifiers
`["10","20","30"]`, element hidden for `"20"` only, visible and clickable for
the rest: all elements are found, and the run yields
`(added, skipped, errors) = (2, 1, 0)` with exactly 2 clicks. -/
theorem c3_counter_identities_witness :
    (∀ a ∈ (["10", "20", "30"] : List String),
      isFound ((fun x => if x = "20"
        then ItemPage.found (some "display: none;") false
        else ItemPage.found none false) a) = true) ∧
    ((add_to_wishlist (fun x => if x = "20"
          then ItemPage.found (some "display: none;") false
          else ItemPage.found none false) ["10", "20", "30"]).1
        = ⟨2, 1, 0⟩ ∧
      (add_to_wishlist (fun x => if x = "20"
          then ItemPage.found (some "display: none;") false
          else ItemPage.found none false) ["10", "20", "30"]).2.count
          Effect.click = 2) := by
  refine ⟨by decide, ?_, ?_⟩
  · have h := c3_counter_identities (fun x => if x = "20"
        then ItemPage.found (some "display: none;") false
        else ItemPage.found none false) ["10", "20", "30"] (by decide)
      |>.1
    revert h
    decide
  · decide

/-- Claim C7: a per-identifier failure never aborts the run.  If the
wishlist-action element is not located within the bounded wait, the iteration
records exactly one `Error` with no retry and no pause; any other unexpected
exception (navigation failure, or a failing click on a visible element) is
caught, recorded as one `Error`, and followed by the 2-second recovery pause.
In both cases every identifier before and after contributes exactly as it
would on its own, so the loop reaches the final summary. -/
theorem c7_failure_isolated (env : String → ItemPage)
    (pre post : List String) (b : String) (h : failsFor env b = true) :
    processItem (env b)
        = (Outcome.Error,
          if env b = ItemPage.waitTimeout then ([] : List Effect)
          else [Effect.recoveryDelay]) ∧
    (add_to_wishlist env (pre ++ b :: post)).1.added
        = (add_to_wishlist env pre).1.added
            + (add_to_wishlist env post).1.added ∧
    (add_to_wishlist env (pre ++ b :: post)).1.skipped
        = (add_to_wishlist env pre).1.skipped
            + (add_to_wishlist env post).1.skipped ∧
    (add_to_wishlist env (pre ++ b :: post)).1.errors
        = (add_to_wishlist env pre).1.errors + 1
            + (add_to_wishlist env post).1.errors ∧
    (add_to_wishlist env (pre ++ b :: post)).2
        = ((add_to_wishlist env pre).2 ++ (processItem (env b)).2)
            ++ (add_to_wishlist env post).2 := by
  have hpi : processItem (env b)
      = (Outcome.Error,
        if env b = ItemPage.waitTimeout then ([] : List Effect)
        else [Effect.recoveryDelay]) := by
    cases henv : env b with
    | navRaises => simp [processItem]
    | waitTimeout => simp [processItem]
    | found st cr =>
        have h' := h
        simp only [failsFor, henv] at h'
        have hcr : cr = true := (Bool.and_eq_true_iff.mp h').2
        have hst : isHidden st = false := by
          cases hx : isHidden st with
          | false => rfl
          | true => rw [hx] at h'; simp at h'
        simp [processItem, hst, hcr]
  refine ⟨hpi, ?_, ?_, ?_, ?_⟩ <;>
    rw [add_to_wishlist_middle, hpi] <;> simp [applyOutcome]

/-- Page-state assignment of the spec's end-to-end scenario C: the
wishlist-action element lookup times out for identifier `"30"`; for every
other identifier the element is found, visible, and clickable. -/
def envScenarioC : String → ItemPage :=
  fun x => if x = "30" then ItemPage.waitTimeout
    else ItemPage.found none false

/-- Witness for C7 at the spec's end-to-end scenario C: lookup times out for
`"30"` after `["10","20"]`; that identifier contributes exactly one error and
no pause, and the run still reaches the summary with the other identifiers
processed as on their own. -/
theorem c7_failure_isolated_witness :
    failsFor envScenarioC "30" = true ∧
    (processItem (envScenarioC "30")
        = (Outcome.Error,
          if envScenarioC "30" = ItemPage.waitTimeout then ([] : List Effect)
          else [Effect.recoveryDelay]) ∧
      (add_to_wishlist envScenarioC (["10", "20"] ++ "30" :: [])).1.added
          = (add_to_wishlist envScenarioC ["10", "20"]).1.added
              + (add_to_wishlist envScenarioC []).1.added ∧
      (add_to_wishlist envScenarioC (["10", "20"] ++ "30" :: [])).1.skipped
          = (add_to_wishlist envScenarioC ["10", "20"]).1.skipped
              + (add_to_wishlist envScenarioC []).1.skipped ∧
      (add_to_wishlist envScenarioC (["10", "20"] ++ "30" :: [])).1.errors
          = (add_to_wishlist envScenarioC ["10", "20"]).1.errors + 1
              + (add_to_wishlist envScenarioC []).1.errors ∧
      (add_to_wishlist envScenarioC (["10", "20"] ++ "30" :: [])).2
          = ((add_to_wishlist envScenarioC ["10", "20"]).2
              ++ (processItem (envScenarioC "30")).2)
              ++ (add_to_wishlist envScenarioC []).2) := by
  exact ⟨by decide,
    c7_failure_isolated envScenarioC ["10", "20"] [] "30" (by decide)⟩

/-- Claim C8: an identifier whose wishlist-action element is found and marked
hidden is recorded as `AlreadyPresent` (skipped), triggers no click and no
delay, and the loop proceeds immediately: the run on `pre ++ [b] ++ post`
is the run on `pre` and `post` plus one `skipped`, with an unchanged effect
trace. -/
theorem c8_hidden_skips_without_action (env : String → ItemPage)
    (pre post : List String) (b : String) (h : hiddenFor env b = true) :
    processItem (env b) = (Outcome.AlreadyPresent, []) ∧
    add_to_wishlist env (pre ++ b :: post)
      = (⟨(add_to_wishlist env pre).1.added
            + (add_to_wishlist env post).1.added,
          (add_to_wishlist env pre).1.skipped + 1
            + (add_to_wishlist env post).1.skipped,
          (add_to_wishlist env pre).1.errors
            + (add_to_wishlist env post).1.errors⟩,
        (add_to_wishlist env pre).2 ++ (add_to_wishlist env post).2) := by
  have hpi : processItem (env b) = (Outcome.AlreadyPresent, []) := by
    cases henv : env b with
    | navRaises => simp [hiddenFor, itemHidden, henv] at h
    | waitTimeout => simp [hiddenFor, itemHidden, henv] at h
    | found st cr =>
        have h' := h
        simp only [hiddenFor, itemHidden, henv] at h'
        simp [processItem, h']
  refine ⟨hpi, ?_⟩
  rw [add_to_wishlist_middle, hpi]
  simp [applyOutcome]

/-- Page-state assignment of the spec's end-to-end scenario B: the
wishlist-action element is hidden for identifier `"20"` only, and found,
visible and clickable for every other identifier. -/
def envScenarioB : String → ItemPage :=
  fun x => if x = "20" then ItemPage.found (some "display: none;") false
    else ItemPage.found none false

/-- Witness for C8 at scenario B's hidden identifier: `"20"` between `"10"`
and `"30"` is skipped with no click and no delay, and the neighbours are
processed as on their own. -/
theorem c8_hidden_skips_without_action_witness :
    hiddenFor envScenarioB "20" = true ∧
    (processItem (envScenarioB "20") = (Outcome.AlreadyPresent, []) ∧
      add_to_wishlist envScenarioB (["10"] ++ "20" :: ["30"])
        = (⟨(add_to_wishlist envScenarioB ["10"]).1.added
              + (add_to_wishlist envScenarioB ["30"]).1.added,
            (add_to_wishlist envScenarioB ["10"]).1.skipped + 1
              + (add_to_wishlist envScenarioB ["30"]).1.skipped,
            (add_to_wishlist envScenarioB ["10"]).1.errors
              + (add_to_wishlist envScenarioB ["30"]).1.errors⟩,
          (add_to_wishlist envScenarioB ["10"]).2
            ++ (add_to_wishlist envScenarioB ["30"]).2)) := by
  exact ⟨by decide,
    c8_hidden_skips_without_action envScenarioB ["10"] ["30"] "20"
      (by decide)⟩

/-! ## Cache-directory claims -/

/-- Counterexample to claim C4: in the empty-wishlist termination mode —
page 0 of the endpoint is already empty — `main` returns right after
`download_wishlist` without calling `cleanup_temp_files`, yet
`download_wishlist` has already created the cache directory; so after this
run the cache directory still exists (empty), contradicting the claim that
it does not exist in every termination mode. -/
theorem c4_counterexample :
    runMain [] false BrowserOutcome.completes = some [] ∧
    some ([] : List Nat) ≠ (none : Option (List Nat)) := by
  exact ⟨rfl, by decide⟩

/-- Claim C4 as amended: whenever the fetch returns without raising and finds
a non-empty wishlist, the cache directory is removed on every later
termination mode — dry-run, normal completion, fatal error in the browser
phase, and user interrupt in the browser phase — and removing it while it is
absent is a no-op rather than an error.  (On the empty-wishlist early return,
and when the fetch itself raises, the directory is left behind.) -/
theorem c4_amended_cache_cleanup (pages : List PageResult) (r : Nat)
    (f : List Nat) (ids : List String)
    (h : download_wishlist pages = ⟨r, f, FetchOutcome.returned ids⟩)
    (hne : ids ≠ []) (dry_run : Bool) (bo : BrowserOutcome) :
    runMain pages dry_run bo = none ∧
    cleanup_temp_files none = none := by
  refine ⟨?_, rfl⟩
  cases ids with
  | nil => exact absurd rfl hne
  | cons a t =>
      simp only [runMain]
      rw [h]
      cases dry_run <;> cases bo <;> simp [cleanup_temp_files]

/-- Witness for the amended C4: a one-page wishlist `{"10":{}}`; after a
normal non-dry-run completion the cache directory is gone, and a second
cleanup of the absent directory is a no-op. -/
theorem c4_amended_cache_cleanup_witness :
    download_wishlist [objPage ["10"]]
        = ⟨2, [0], FetchOutcome.returned ["10"]⟩ ∧
    (["10"] : List String) ≠ [] ∧
    (runMain [objPage ["10"]] false BrowserOutcome.completes = none ∧
      cleanup_temp_files none = none) := by
  exact ⟨by decide, by decide,
    c4_amended_cache_cleanup [objPage ["10"]] 2 [0] ["10"] (by decide)
      (by decide) false BrowserOutcome.completes⟩

/-! ## Limit-flag claim -/

/-- Claim C10: a `--limit` of `0` is falsy in `if args.limit:`, so no
truncation happens and the replicator receives the full fetched list rather
than zero items; a negative `--limit` is truthy and Python's `l[:n]` with
negative `n` slices identifiers off the end of the list instead of bounding
the count. -/
theorem c10_limit_zero_and_negative (l : List String) (k : Nat)
    (hk : 0 < k) :
    applyLimit (some 0) l = l ∧
    applyLimit (some (-(k : Int))) l = l.take (l.length - k) := by
  constructor
  · rfl
  · show (if (-(k : Int)) = 0 then l else pySliceTo l (-(k : Int))) = _
    rw [if_neg (by omega : ¬(-(k : Int)) = 0)]
    show (if (0 : Int) ≤ -(k : Int) then l.take (-(k : Int)).toNat
        else l.take (((l.length : Int) + -(k : Int))).toNat) = _
    rw [if_neg (by omega : ¬(0 : Int) ≤ -(k : Int))]
    have ht : (((l.length : Int) + -(k : Int))).toNat = l.length - k := by
      omega
    rw [ht]

/-- Witness for C10: with three fetched identifiers, `--limit 0` keeps all
three, while `--limit -1` drops the last one. -/
theorem c10_limit_zero_and_negative_witness :
    0 < 1 ∧
    (applyLimit (some 0) ["10", "20", "30"] = ["10", "20", "30"] ∧
      applyLimit (some (-((1 : Nat) : Int))) ["10", "20", "30"]
        = (["10", "20", "30"] : List String).take
            ((["10", "20", "30"] : List String).length - 1)) := by
  exact ⟨by decide,
    c10_limit_zero_and_negative ["10", "20", "30"] 1 (by decide)⟩
